import Mathlib

/-!
Verification development for the running-training-plan generator
(`src/models.py`, `src/config.py`, `src/plan_generator.py`).

The Python code is shallowly embedded: Python `float` arithmetic is modelled
by exact rationals (`ℚ`, with decimal literals such as `0.7` rendered as
`7/10`), Python `int` by `ℕ`/`ℤ`, `round(x, 1)` by round-half-up to one
decimal (`round10`), `int(x)` (truncation toward zero) by `pyInt`, and a
raised exception by `Option` (`none`).

The source's `generate_plan` raises `ValueError` inside `_determine_phase`
on every profile: the phase enum is constructed BY VALUE from a member-name
string ("BASE", ... while the values are "Base", ...).  `generate_plan_src`
is the faithful embedding of that behavior and is proved to return `none`
always (`generate_plan_src_none`).  The definitions suffixed `_intended`
form a clearly-marked VARIANT — identical to the source except that the
phase lookup is the by-name lookup the spec (section 4.1 step 3) describes —
used only to state what rescued claims assert about the intended algorithm;
they are not the embedding of the source.

Free-text fields (`description`, `notes`, `key_focus`, coaching strings) and
the informational energy-system percentages are not modelled; no claim
depends on them.  Python's stable list sort is modelled by insertion sort
(stable, same result).
-/

/-- `RaceDistance` enum from models.py (values "1 Mile", "5K", ...). -/
inductive RaceDistance
  | MILE
  | FIVE_K
  | TEN_K
  | HALF_MARATHON
  | MARATHON
deriving DecidableEq

/-- `ExperienceLevel` enum from models.py. -/
inductive ExperienceLevel
  | BEGINNER
  | INTERMEDIATE
  | ADVANCED
deriving DecidableEq

/-- `TrainingZone` enum from models.py. -/
inductive TrainingZone
  | ZONE_1
  | ZONE_2
  | ZONE_3
  | ZONE_4
  | ZONE_5
deriving DecidableEq

/-- `WorkoutType` enum from models.py. -/
inductive WorkoutType
  | EASY_RUN
  | LONG_RUN
  | TEMPO_RUN
  | INTERVALS
  | STRIDES
  | HILLS
  | RACE_PACE
  | RECOVERY
  | REST
deriving DecidableEq

/-- `TrainingPhase` enum from models.py.  The Python enum member names are
BASE/BUILD/PEAK/TAPER and the enum VALUES are the strings "Base"/"Build"/
"Peak"/"Taper"; this mismatch matters for `determine_phase_src` below. -/
inductive TrainingPhase
  | BASE
  | BUILD
  | PEAK
  | TAPER
deriving DecidableEq

/-- Python `TrainingPhase(value)`: enum construction by VALUE.  Returns
`none` where Python raises `ValueError`. -/
def phase_of_value (s : String) : Option TrainingPhase :=
  if s = "Base" then some .BASE
  else if s = "Build" then some .BUILD
  else if s = "Peak" then some .PEAK
  else if s = "Taper" then some .TAPER
  else none

/-- `RunnerProfile` dataclass from models.py.  `peak_race_date` is modelled
as an opaque day count (the generator never reads it); `previous_injuries`
is informational free text. -/
structure RunnerProfile where
  experience_level : ExperienceLevel
  target_distance : RaceDistance
  peak_race_date : ℤ
  weekly_mileage_target : ℕ
  days_per_week : ℕ
  current_weekly_mileage : Option ℕ
  previous_injuries : List String
  strength_training_days : ℕ
deriving DecidableEq

/-- `RunnerProfile.__post_init__`: `current_weekly_mileage` defaults to
`weekly_mileage_target * 0.7` when absent. -/
def RunnerProfile.resolved_current_mileage (p : RunnerProfile) : ℚ :=
  match p.current_weekly_mileage with
  | some c => (c : ℚ)
  | none => (p.weekly_mileage_target : ℚ) * (7/10)

/-- `Workout` dataclass from models.py (without the free-text
`description`/`notes` fields). -/
structure Workout where
  day : ℕ
  workout_type : WorkoutType
  distance_miles : ℚ
  duration_minutes : ℤ
  intensity_zone : TrainingZone
deriving DecidableEq

/-- `TrainingWeek` dataclass from models.py (without `notes`). -/
structure TrainingWeek where
  week_number : ℕ
  phase : TrainingPhase
  workouts : List Workout
  total_mileage : ℚ
deriving DecidableEq

/-- `TrainingPlan` dataclass from models.py (without `notes`). -/
structure TrainingPlan where
  runner_profile : RunnerProfile
  weeks : List TrainingWeek
  total_weeks : ℕ
  peak_mileage : ℚ
deriving DecidableEq

/-- `DistanceConfig` dataclass from models.py (without the informational
`energy_system_*` and `key_focus` fields). -/
structure DistanceConfig where
  distance : RaceDistance
  min_training_weeks : ℕ
  max_training_weeks : ℕ
  base_phase_weeks : ℕ
  build_phase_weeks : ℕ
  peak_phase_weeks : ℕ
  taper_weeks : ℕ
  long_run_percentage : ℚ
deriving DecidableEq

/-- `DISTANCE_CONFIGS` table from config.py. -/
def DISTANCE_CONFIGS : RaceDistance → DistanceConfig
  | .MILE => ⟨.MILE, 8, 12, 4, 4, 2, 2, 15/100⟩
  | .FIVE_K => ⟨.FIVE_K, 10, 16, 6, 6, 2, 2, 20/100⟩
  | .TEN_K => ⟨.TEN_K, 12, 18, 6, 8, 2, 2, 25/100⟩
  | .HALF_MARATHON => ⟨.HALF_MARATHON, 14, 20, 8, 8, 2, 2, 30/100⟩
  | .MARATHON => ⟨.MARATHON, 16, 24, 8, 10, 2, 4, 35/100⟩

/-- One entry of the `EXPERIENCE_ADJUSTMENTS` table from config.py. -/
structure ExperienceAdjustment where
  mileage_increase_rate : ℚ
  max_weekly_mileage_multiplier : ℚ
  recovery_weeks_frequency : ℕ
  strength_training_days : ℕ
  base_phase_extension : ℕ
deriving DecidableEq

/-- `EXPERIENCE_ADJUSTMENTS` table from config.py. -/
def EXPERIENCE_ADJUSTMENTS : ExperienceLevel → ExperienceAdjustment
  | .BEGINNER => ⟨5/100, 80/100, 3, 2, 2⟩
  | .INTERMEDIATE => ⟨8/100, 90/100, 4, 2, 1⟩
  | .ADVANCED => ⟨10/100, 1, 5, 3, 0⟩

/-- Keys of the per-phase workout-distribution dictionaries in config.py, in
their (Python 3.7+ insertion-order preserving) declaration order. -/
inductive DistKey
  | easy_runs
  | long_runs
  | tempo_runs
  | strides
  | intervals
  | hills
deriving DecidableEq

/-- `PHASE_WORKOUT_DISTRIBUTION` from config.py, keyed by `phase.name`; the
list order is the dict insertion order, which the generator's loop follows. -/
def PHASE_WORKOUT_DISTRIBUTION : TrainingPhase → List (DistKey × ℚ)
  | .BASE =>
    [(.easy_runs, 70/100), (.long_runs, 20/100), (.tempo_runs, 5/100),
     (.strides, 5/100), (.intervals, 0), (.hills, 0)]
  | .BUILD =>
    [(.easy_runs, 60/100), (.long_runs, 20/100), (.tempo_runs, 10/100),
     (.strides, 5/100), (.intervals, 5/100), (.hills, 0)]
  | .PEAK =>
    [(.easy_runs, 50/100), (.long_runs, 15/100), (.tempo_runs, 15/100),
     (.strides, 5/100), (.intervals, 10/100), (.hills, 5/100)]
  | .TAPER =>
    [(.easy_runs, 70/100), (.long_runs, 10/100), (.tempo_runs, 10/100),
     (.strides, 5/100), (.intervals, 5/100), (.hills, 0)]

/-- `INJURY_PREVENTION["max_mileage_increase"]` (the 10 percent rule). -/
def max_mileage_increase : ℚ := 10/100

/-- `INJURY_PREVENTION["down_week_reduction"]` (25 percent volume cut). -/
def down_week_reduction : ℚ := 25/100

/-- Python `round(x, 1)`: round to one decimal.  Python rounds floats
half-to-even; at every value this development evaluates, the argument is not
a tie, where half-to-even and Mathlib's round-half-up agree, so `round` is
used. -/
def round10 (q : ℚ) : ℚ := ((round (10 * q) : ℤ) : ℚ) / 10

/-- Python `int(x)`: truncation toward zero. -/
def pyInt (q : ℚ) : ℤ := if q < 0 then -⌊-q⌋ else ⌊q⌋

/-- `Workout._estimate_pace` from models.py: minutes per mile by zone (the
9.0 dictionary-default is unreachable, all five zones are present). -/
def zone_pace : TrainingZone → ℚ
  | .ZONE_1 => 10
  | .ZONE_2 => 9
  | .ZONE_3 => 8
  | .ZONE_4 => 7
  | .ZONE_5 => 6

/-- `Workout` construction with `duration_minutes=None` followed by
`Workout.__post_init__`: duration is `int(distance_miles * pace)`. -/
def Workout.make (day : ℕ) (workout_type : WorkoutType) (distance_miles : ℚ)
    (intensity_zone : TrainingZone) : Workout :=
  { day := day, workout_type := workout_type, distance_miles := distance_miles,
    duration_minutes := pyInt (distance_miles * zone_pace intensity_zone),
    intensity_zone := intensity_zone }

/-- `TrainingWeek` construction followed by `TrainingWeek.__post_init__`:
a falsy (zero) `total_mileage` is replaced by the sum of workout distances. -/
def mkTrainingWeek (week_number : ℕ) (phase : TrainingPhase)
    (workouts : List Workout) (total_mileage : ℚ) : TrainingWeek :=
  { week_number := week_number, phase := phase, workouts := workouts,
    total_mileage :=
      if total_mileage = 0 then (workouts.map (fun w => w.distance_miles)).sum
      else total_mileage }

/-- `TrainingPlan` construction followed by `TrainingPlan.__post_init__`. -/
def mkTrainingPlan (runner_profile : RunnerProfile) (weeks : List TrainingWeek)
    (total_weeks : ℕ) (peak_mileage : ℚ) : TrainingPlan :=
  { runner_profile := runner_profile, weeks := weeks,
    total_weeks := if total_weeks = 0 then weeks.length else total_weeks,
    peak_mileage :=
      if peak_mileage = 0 then
        ((weeks.map (fun w => w.total_mileage)).foldr max 0)
      else peak_mileage }

/-- `TrainingPlanGenerator._calculate_training_weeks` from plan_generator.py. -/
def calculate_training_weeks (profile : RunnerProfile) : ℕ :=
  let distance_config := DISTANCE_CONFIGS profile.target_distance
  let experience_adjustment := EXPERIENCE_ADJUSTMENTS profile.experience_level
  let base_weeks := distance_config.min_training_weeks
  let base_extension := experience_adjustment.base_phase_extension
  let total_weeks := base_weeks + base_extension
  let total_weeks :=
    if total_weeks < distance_config.min_training_weeks then
      distance_config.min_training_weeks
    else total_weeks
  if total_weeks > distance_config.max_training_weeks then
    distance_config.max_training_weeks
  else total_weeks

/-- The `{"BASE": ..., "BUILD": ..., "PEAK": ..., "TAPER": ...}` dictionary
returned by `_calculate_phase_breakdown` (Python ints, so `ℤ`). -/
structure PhaseBreakdown where
  BASE : ℤ
  BUILD : ℤ
  PEAK : ℤ
  TAPER : ℤ
deriving DecidableEq

/-- `TrainingPlanGenerator._calculate_phase_breakdown` from plan_generator.py. -/
def calculate_phase_breakdown (profile : RunnerProfile) (total_weeks : ℕ) :
    PhaseBreakdown :=
  let distance_config := DISTANCE_CONFIGS profile.target_distance
  let experience_adjustment := EXPERIENCE_ADJUSTMENTS profile.experience_level
  let base_weeks : ℤ :=
    (distance_config.base_phase_weeks : ℤ) +
      (experience_adjustment.base_phase_extension : ℤ)
  let build_weeks : ℤ := (distance_config.build_phase_weeks : ℤ)
  let peak_weeks : ℤ := (distance_config.peak_phase_weeks : ℤ)
  let taper_weeks : ℤ := (distance_config.taper_weeks : ℤ)
  let allocated_weeks := base_weeks + build_weeks + peak_weeks + taper_weeks
  if allocated_weeks ≠ (total_weeks : ℤ) then
    let build_weeks := (total_weeks : ℤ) - base_weeks - peak_weeks - taper_weeks
    if build_weeks < 2 then
      let build_weeks : ℤ := 2
      let base_weeks := (total_weeks : ℤ) - build_weeks - peak_weeks - taper_weeks
      ⟨base_weeks, build_weeks, peak_weeks, taper_weeks⟩
    else
      ⟨base_weeks, build_weeks, peak_weeks, taper_weeks⟩
  else
    ⟨base_weeks, build_weeks, peak_weeks, taper_weeks⟩

/-- Faithful model of `TrainingPlanGenerator._determine_phase`: the source
iterates the breakdown dict in insertion order (BASE, BUILD, PEAK, TAPER)
comparing `week_num` against cumulative week counts, and then calls
`TrainingPhase(phase_name)` — enum construction BY VALUE — with the dict KEY
(e.g. "BASE").  The enum values are "Base"/"Build"/"Peak"/"Taper", so that
call raises `ValueError` for every reachable week; `none` models the raise. -/
def determine_phase_src (week_num : ℕ) (pb : PhaseBreakdown) :
    Option TrainingPhase :=
  if (week_num : ℤ) ≤ pb.BASE then phase_of_value "BASE"
  else if (week_num : ℤ) ≤ pb.BASE + pb.BUILD then phase_of_value "BUILD"
  else if (week_num : ℤ) ≤ pb.BASE + pb.BUILD + pb.PEAK then
    phase_of_value "PEAK"
  else if (week_num : ℤ) ≤ pb.BASE + pb.BUILD + pb.PEAK + pb.TAPER then
    phase_of_value "TAPER"
  else some .TAPER

/-- `_determine_phase` as intended (and as spec section 4.1 step 3 states):
week `n` belongs to the first phase whose cumulative boundary reaches `n`,
with a Taper fallback.  The source's `TrainingPhase(phase_name)` call
instead raises `ValueError` (see `determine_phase_src`); here the enum
member named by the dict key is returned directly, which is the only reading
under which any downstream code is reachable. -/
def determine_phase (week_num : ℕ) (pb : PhaseBreakdown) : TrainingPhase :=
  if (week_num : ℤ) ≤ pb.BASE then .BASE
  else if (week_num : ℤ) ≤ pb.BASE + pb.BUILD then .BUILD
  else if (week_num : ℤ) ≤ pb.BASE + pb.BUILD + pb.PEAK then .PEAK
  else if (week_num : ℤ) ≤ pb.BASE + pb.BUILD + pb.PEAK + pb.TAPER then .TAPER
  else .TAPER

/-- `TrainingPlanGenerator._calculate_weekly_mileage` from plan_generator.py. -/
def calculate_weekly_mileage (week_num : ℕ) (current_mileage : ℚ)
    (profile : RunnerProfile) (phase : TrainingPhase) : ℚ :=
  let experience_adjustment := EXPERIENCE_ADJUSTMENTS profile.experience_level
  let increase_rate := experience_adjustment.mileage_increase_rate
  let recovery_frequency := experience_adjustment.recovery_weeks_frequency
  if week_num % recovery_frequency = 0 then
    current_mileage * (1 - down_week_reduction)
  else
    let target_mileage :=
      (profile.weekly_mileage_target : ℚ) *
        experience_adjustment.max_weekly_mileage_multiplier
    let target_mileage :=
      if phase = .TAPER then
        target_mileage * (1 - (10/100) * ((week_num % 4 : ℕ) : ℚ))
      else target_mileage
    let max_increase := current_mileage * max_mileage_increase
    let new_mileage :=
      current_mileage + (target_mileage - current_mileage) * increase_rate
    let new_mileage :=
      if new_mileage > current_mileage + max_increase then
        current_mileage + max_increase
      else new_mileage
    let new_mileage :=
      if new_mileage > target_mileage then target_mileage else new_mileage
    round10 new_mileage

/-- `TrainingPlanGenerator._determine_workout_intensity` (the ZONE_2
dictionary default is unreachable, all workout types are present). -/
def determine_workout_intensity (workout_type : WorkoutType)
    (_phase : TrainingPhase) : TrainingZone :=
  match workout_type with
  | .EASY_RUN => .ZONE_2
  | .LONG_RUN => .ZONE_2
  | .TEMPO_RUN => .ZONE_4
  | .INTERVALS => .ZONE_5
  | .STRIDES => .ZONE_4
  | .HILLS => .ZONE_4
  | .RACE_PACE => .ZONE_4
  | .RECOVERY => .ZONE_1
  | .REST => .ZONE_1

/-- `TrainingPlanGenerator._get_workout_type` (the EASY_RUN default is
unreachable, all six distribution keys are mapped). -/
def get_workout_type : DistKey → WorkoutType
  | .easy_runs => .EASY_RUN
  | .long_runs => .LONG_RUN
  | .tempo_runs => .TEMPO_RUN
  | .intervals => .INTERVALS
  | .strides => .STRIDES
  | .hills => .HILLS

/-- `TrainingPlanGenerator._create_workout` from plan_generator.py (the
description synthesis is free text and not modelled). -/
def create_workout (day : ℕ) (workout_type : WorkoutType) (distance : ℚ)
    (phase : TrainingPhase) (_profile : RunnerProfile) : Workout :=
  if workout_type = .REST then
    Workout.make day workout_type 0 .ZONE_1
  else
    Workout.make day workout_type distance
      (determine_workout_intensity workout_type phase)

/-- The `for workout_type, percentage in workout_distribution.items()` loop
of `_generate_weekly_plan`: the mutable `day` counter, `remaining_workouts`
budget and growing `workouts` list become explicit state; the result is
(workouts, final day, final remaining_workouts). -/
def distribute_workouts (profile : RunnerProfile) (phase : TrainingPhase)
    (long_run_distance remaining_mileage : ℚ) :
    List (DistKey × ℚ) → ℕ → ℤ → List Workout × ℕ × ℤ
  | [], day, remaining_workouts => ([], day, remaining_workouts)
  | (workout_type, percentage) :: rest, day, remaining_workouts =>
    if percentage > 0 ∧ remaining_workouts > 0 then
      if workout_type = DistKey.long_runs then
        let w := create_workout day .LONG_RUN long_run_distance phase profile
        let r := distribute_workouts profile phase long_run_distance
          remaining_mileage rest (day + 1) remaining_workouts
        (w :: r.1, r.2)
      else
        let workout_distance :=
          (remaining_mileage * percentage) / (remaining_workouts : ℚ)
        if workout_distance > 0 then
          let w := create_workout day (get_workout_type workout_type)
            workout_distance phase profile
          let r := distribute_workouts profile phase long_run_distance
            remaining_mileage rest (day + 1) (remaining_workouts - 1)
          (w :: r.1, r.2)
        else
          distribute_workouts profile phase long_run_distance
            remaining_mileage rest day remaining_workouts
    else
      distribute_workouts profile phase long_run_distance
        remaining_mileage rest day remaining_workouts

/-- The `while day <= profile.days_per_week` rest-day fill loop of
`_generate_weekly_plan`. -/
def rest_fill (profile : RunnerProfile) (phase : TrainingPhase) (day : ℕ) :
    List Workout :=
  (List.range' day (profile.days_per_week + 1 - day)).map
    (fun d => create_workout d .REST 0 phase profile)

/-- `TrainingPlanGenerator._generate_weekly_plan` from plan_generator.py.
Python's stable `list.sort(key=lambda w: w.day)` is modelled by insertion
sort on the day field. -/
def generate_weekly_plan (week_num : ℕ) (phase : TrainingPhase)
    (weekly_mileage : ℚ) (profile : RunnerProfile) : TrainingWeek :=
  let distance_config := DISTANCE_CONFIGS profile.target_distance
  let workout_distribution := PHASE_WORKOUT_DISTRIBUTION phase
  let long_run_distance := weekly_mileage * distance_config.long_run_percentage
  let remaining_mileage := weekly_mileage - long_run_distance
  let r := distribute_workouts profile phase long_run_distance
    remaining_mileage workout_distribution 1 ((profile.days_per_week : ℤ) - 1)
  let workouts := r.1 ++ rest_fill profile phase r.2.1
  let workouts := List.insertionSort (fun a b => a.day ≤ b.day) workouts
  mkTrainingWeek week_num phase workouts weekly_mileage

/-- The week-generation loop of the INTENDED variant of `generate_plan`
(by-name phase lookup): `n` counts the weeks still to generate, `week_num`
is the 1-based loop counter and `current_mileage` the carried mileage.  The
faithful embedding of the source's loop is `plan_weeks_src`, which raises
on its first iteration. -/
def plan_weeks_intended (profile : RunnerProfile) (pb : PhaseBreakdown) :
    ℕ → ℕ → ℚ → List TrainingWeek
  | 0, _, _ => []
  | n + 1, week_num, current_mileage =>
    let phase := determine_phase week_num pb
    let weekly_mileage :=
      calculate_weekly_mileage week_num current_mileage profile phase
    generate_weekly_plan week_num phase weekly_mileage profile ::
      plan_weeks_intended profile pb n (week_num + 1) weekly_mileage

/-- The INTENDED variant of `TrainingPlanGenerator.generate_plan`:
identical to the source except that `_determine_phase` is read as the
by-name lookup (`determine_phase`) the spec describes.  This is NOT the
embedding of the source — the source raises; see `generate_plan_src`. -/
def generate_plan_intended (profile : RunnerProfile) : TrainingPlan :=
  let total_weeks := calculate_training_weeks profile
  let phase_breakdown := calculate_phase_breakdown profile total_weeks
  let weeks :=
    plan_weeks_intended profile phase_breakdown total_weeks 1
      profile.resolved_current_mileage
  mkTrainingPlan profile weeks total_weeks
    ((weeks.map (fun w => w.total_mileage)).foldr max 0)

/-- The week-generation loop of the source `generate_plan`, faithfully:
each iteration first calls `_determine_phase`, which raises `ValueError`
(modelled by `none`, see `determine_phase_src`); the raise propagates and
no week list is ever produced. -/
def plan_weeks_src (profile : RunnerProfile) (pb : PhaseBreakdown) :
    ℕ → ℕ → ℚ → Option (List TrainingWeek)
  | 0, _, _ => some []
  | n + 1, week_num, current_mileage =>
    match determine_phase_src week_num pb with
    | none => none
    | some phase =>
      let weekly_mileage :=
        calculate_weekly_mileage week_num current_mileage profile phase
      match plan_weeks_src profile pb n (week_num + 1) weekly_mileage with
      | none => none
      | some rest =>
        some (generate_weekly_plan week_num phase weekly_mileage profile :: rest)

/-- `TrainingPlanGenerator.generate_plan` from plan_generator.py, faithfully:
the `ValueError` raised by `_determine_phase` on the first loop iteration
propagates (`none`), so the source never returns a `TrainingPlan` — proved
in `generate_plan_src_none`. -/
def generate_plan_src (profile : RunnerProfile) : Option TrainingPlan :=
  let total_weeks := calculate_training_weeks profile
  let phase_breakdown := calculate_phase_breakdown profile total_weeks
  match plan_weeks_src profile phase_breakdown total_weeks 1
      profile.resolved_current_mileage with
  | none => none
  | some weeks =>
    some (mkTrainingPlan profile weeks total_weeks
      ((weeks.map (fun w => w.total_mileage)).foldr max 0))

/-- A valid runner profile in the sense of the spec, section 3: positive
weekly mileage target, 3 to 7 training days, and (when supplied) a positive
current weekly mileage. -/
def ValidProfile (p : RunnerProfile) : Prop :=
  1 ≤ p.weekly_mileage_target ∧ 3 ≤ p.days_per_week ∧ p.days_per_week ≤ 7 ∧
    1 ≤ p.current_weekly_mileage.getD 1

instance (p : RunnerProfile) : Decidable (ValidProfile p) := by
  unfold ValidProfile
  infer_instance

/-- The phase breakdown computed for a profile (shared by the faithful and
the intended pipeline: `_calculate_phase_breakdown` runs before the crash). -/
def phase_breakdown_of (p : RunnerProfile) : PhaseBreakdown :=
  calculate_phase_breakdown p (calculate_training_weeks p)

/-- The phase of week `k` under the intended by-name lookup (the source
assigns no phase: it raises; see `determine_phase_src`). -/
def week_phase (p : RunnerProfile) (k : ℕ) : TrainingPhase :=
  determine_phase k (phase_breakdown_of p)

/-- The mileage recurrence of the intended-variant generation loop:
`mileage_at p 0` is the starting `current_mileage` and `mileage_at p k` is
week `k`'s mileage (each step is the source's `_calculate_weekly_mileage`,
with the phase supplied by the intended lookup). -/
def mileage_at (p : RunnerProfile) : ℕ → ℚ
  | 0 => p.resolved_current_mileage
  | k + 1 =>
    calculate_weekly_mileage (k + 1) (mileage_at p k) p (week_phase p (k + 1))

/-- The `TrainingWeek` the intended variant generates for week `k`. -/
def week_at (p : RunnerProfile) (k : ℕ) : TrainingWeek :=
  generate_weekly_plan k (week_phase p k) (mileage_at p k) p

/-- Number of `long_runs` entries in a distribution list. -/
def long_runs_count : List (DistKey × ℚ) → ℕ
  | [] => 0
  | (key, _) :: rest =>
    (if key = DistKey.long_runs then 1 else 0) + long_runs_count rest

/-- Sum of the non-long-run percentages of a distribution list. -/
def nonlong_pct_sum : List (DistKey × ℚ) → ℚ
  | [] => 0
  | (key, pct) :: rest =>
    (if key = DistKey.long_runs then 0 else pct) + nonlong_pct_sum rest

/-- The distribution step of `_generate_weekly_plan` with the long-run
distance and remaining mileage as computed there. -/
def week_distribution (profile : RunnerProfile) (phase : TrainingPhase)
    (M : ℚ) : List Workout × ℕ × ℤ :=
  distribute_workouts profile phase
    (M * (DISTANCE_CONFIGS profile.target_distance).long_run_percentage)
    (M - M * (DISTANCE_CONFIGS profile.target_distance).long_run_percentage)
    (PHASE_WORKOUT_DISTRIBUTION phase) 1 ((profile.days_per_week : ℤ) - 1)

/-- Position of a phase in the fixed periodization order
Base, Build, Peak, Taper. -/
def phase_order : TrainingPhase → ℕ
  | .BASE => 0
  | .BUILD => 1
  | .PEAK => 2
  | .TAPER => 3

/-- Example valid profile: Beginner targeting a 5K, 20 miles per week target,
4 training days, current mileage left to default (14.0). -/
def profile_5K : RunnerProfile :=
  ⟨.BEGINNER, .FIVE_K, 0, 20, 4, none, [], 2⟩

/-- Valid profile exhibiting the rounding overshoot of the 10 percent rule:
Beginner targeting the Mile with a high 100-mile weekly target, 3 days,
current mileage 10. -/
def profile_mile : RunnerProfile :=
  ⟨.BEGINNER, .MILE, 0, 100, 3, some 10, [], 2⟩

/-- Valid profile whose taper spans weeks 13-16 (Advanced, Marathon). -/
def profile_marathon : RunnerProfile :=
  ⟨.ADVANCED, .MARATHON, 0, 40, 5, some 30, [], 2⟩

/-- The taper-phase target mileage of `_calculate_weekly_mileage`:
`weekly_mileage_target * max_weekly_mileage_multiplier` scaled by
`1 - 0.1 * (week_number mod 4)`. -/
def taper_target (p : RunnerProfile) (k : ℕ) : ℚ :=
  (p.weekly_mileage_target : ℚ) *
      (EXPERIENCE_ADJUSTMENTS p.experience_level).max_weekly_mileage_multiplier *
    (1 - (10/100) * ((k % 4 : ℕ) : ℚ))

/-- The bounded-step-toward-target tail of `_calculate_weekly_mileage`:
linear step, 10 percent cap, clamp at the target, round to one decimal. -/
def overload_step (c t r : ℚ) : ℚ :=
  let n := c + (t - c) * r
  let n1 := if n > c + c * max_mileage_increase then c + c * max_mileage_increase
    else n
  let n2 := if n1 > t then t else n1
  round10 n2

lemma plan_weeks_intended_eq_map (p : RunnerProfile) :
    ∀ n w, plan_weeks_intended p (phase_breakdown_of p) n (w + 1) (mileage_at p w) =
      (List.range n).map (fun i => week_at p (w + 1 + i)) := by
  intro n
  induction n with
  | zero => intro w; rfl
  | succ n ih =>
    intro w
    show week_at p (w + 1) ::
        plan_weeks_intended p (phase_breakdown_of p) n (w + 1 + 1) (mileage_at p (w + 1)) = _
    rw [ih (w + 1), List.range_succ_eq_map, List.map_cons, List.map_map]
    refine congrArg₂ (· :: ·) rfl (List.map_congr_left ?_)
    intro i _
    show week_at p (w + 1 + 1 + i) = week_at p (w + 1 + (i + 1))
    congr 1
    omega

lemma generate_plan_intended_weeks (p : RunnerProfile) :
    (generate_plan_intended p).weeks =
      (List.range (calculate_training_weeks p)).map (fun i => week_at p (i + 1)) := by
  show plan_weeks_intended p (phase_breakdown_of p) (calculate_training_weeks p) (0 + 1)
      (mileage_at p 0) = _
  rw [plan_weeks_intended_eq_map p (calculate_training_weeks p) 0]
  refine List.map_congr_left ?_
  intro i _
  congr 1
  omega

lemma generate_plan_intended_weeks_length (p : RunnerProfile) :
    (generate_plan_intended p).weeks.length = calculate_training_weeks p := by
  rw [generate_plan_intended_weeks]
  simp

lemma generate_plan_intended_weeks_get (p : RunnerProfile) (i : ℕ)
    (h : i < (generate_plan_intended p).weeks.length) :
    (generate_plan_intended p).weeks.get ⟨i, h⟩ = week_at p (i + 1) := by
  rw [List.get_eq_getElem]
  simp only [generate_plan_intended_weeks p, List.getElem_map, List.getElem_range]

lemma round10_le_add (q : ℚ) : round10 q ≤ q + 1/20 := by
  have h := round_le_add_half (10 * q)
  unfold round10
  linarith

lemma lt_round10_add (q : ℚ) : q - 1/20 < round10 q := by
  have h := sub_half_lt_round (10 * q)
  unfold round10
  linarith

lemma round10_ge_tenth (q : ℚ) (h : 1/20 < q) : 1/10 ≤ round10 q := by
  have h1 : (1 : ℤ) ≤ round (10 * q) := by
    rw [round_eq]
    refine Int.le_floor.mpr ?_
    push_cast
    linarith
  have h2 : (1 : ℚ) ≤ ((round (10 * q) : ℤ) : ℚ) := by exact_mod_cast h1
  unfold round10
  linarith

lemma clamped_le_cap (n cap t : ℚ) :
    (if (if n > cap then cap else n) > t then t
     else if n > cap then cap else n) ≤ cap := by
  split_ifs <;> linarith

lemma lt_clamped (n cap t lo : ℚ) (hn : lo < n) (hcap : lo < cap)
    (ht : lo < t) :
    lo < (if (if n > cap then cap else n) > t then t
          else if n > cap then cap else n) := by
  split_ifs <;> linarith

lemma rate_bounds (l : ExperienceLevel) :
    0 < (EXPERIENCE_ADJUSTMENTS l).mileage_increase_rate ∧
      (EXPERIENCE_ADJUSTMENTS l).mileage_increase_rate ≤ 1/10 := by
  cases l <;> exact ⟨by norm_num [EXPERIENCE_ADJUSTMENTS], by
    norm_num [EXPERIENCE_ADJUSTMENTS]⟩

lemma mult_bounds (l : ExperienceLevel) :
    4/5 ≤ (EXPERIENCE_ADJUSTMENTS l).max_weekly_mileage_multiplier ∧
      (EXPERIENCE_ADJUSTMENTS l).max_weekly_mileage_multiplier ≤ 1 := by
  cases l <;> exact ⟨by norm_num [EXPERIENCE_ADJUSTMENTS], by
    norm_num [EXPERIENCE_ADJUSTMENTS]⟩

lemma freq_cases (l : ExperienceLevel) :
    (EXPERIENCE_ADJUSTMENTS l).recovery_weeks_frequency = 3 ∨
      (EXPERIENCE_ADJUSTMENTS l).recovery_weeks_frequency = 4 ∨
        (EXPERIENCE_ADJUSTMENTS l).recovery_weeks_frequency = 5 := by
  cases l <;> simp [EXPERIENCE_ADJUSTMENTS]

lemma lr_bounds (d : RaceDistance) :
    0 ≤ (DISTANCE_CONFIGS d).long_run_percentage ∧
      (DISTANCE_CONFIGS d).long_run_percentage ≤ 7/20 := by
  cases d <;> exact ⟨by norm_num [DISTANCE_CONFIGS], by
    norm_num [DISTANCE_CONFIGS]⟩

lemma taper_factor_bounds (k : ℕ) :
    7/10 ≤ 1 - (10/100 : ℚ) * ((k % 4 : ℕ) : ℚ) ∧
      1 - (10/100 : ℚ) * ((k % 4 : ℕ) : ℚ) ≤ 1 := by
  have h : (k % 4 : ℕ) ≤ 3 := by omega
  have h0 : (0 : ℚ) ≤ ((k % 4 : ℕ) : ℚ) := by positivity
  have h3 : ((k % 4 : ℕ) : ℚ) ≤ 3 := by exact_mod_cast h
  constructor <;> nlinarith

lemma target_term_lb (p : RunnerProfile) (hp : ValidProfile p) (k : ℕ)
    (phase : TrainingPhase) :
    14/25 ≤ (if phase = .TAPER then
        (p.weekly_mileage_target : ℚ) *
            (EXPERIENCE_ADJUSTMENTS p.experience_level).max_weekly_mileage_multiplier *
          (1 - (10/100) * ((k % 4 : ℕ) : ℚ))
      else
        (p.weekly_mileage_target : ℚ) *
          (EXPERIENCE_ADJUSTMENTS p.experience_level).max_weekly_mileage_multiplier) := by
  have htgt : (1 : ℚ) ≤ (p.weekly_mileage_target : ℚ) := by exact_mod_cast hp.1
  have hm := mult_bounds p.experience_level
  have hf := taper_factor_bounds k
  have hbase : 4/5 ≤ (p.weekly_mileage_target : ℚ) *
      (EXPERIENCE_ADJUSTMENTS p.experience_level).max_weekly_mileage_multiplier := by
    nlinarith [hm.1, hm.2]
  split_ifs
  · nlinarith [mul_nonneg
      (by linarith :
        (0:ℚ) ≤ (p.weekly_mileage_target : ℚ) *
          (EXPERIENCE_ADJUSTMENTS p.experience_level).max_weekly_mileage_multiplier - 4/5)
      (by linarith [hf.1] : (0:ℚ) ≤ 1 - (10/100) * ((k % 4 : ℕ) : ℚ) - 7/10)]
  · linarith

lemma mileage_at_bounds (p : RunnerProfile) (hp : ValidProfile p) :
    ∀ k, 3/40 ≤ mileage_at p k ∧
      (¬ k % (EXPERIENCE_ADJUSTMENTS p.experience_level).recovery_weeks_frequency = 0 →
        1/10 ≤ mileage_at p k) := by
  have hinit : 7/10 ≤ mileage_at p 0 := by
    show 7/10 ≤ p.resolved_current_mileage
    unfold RunnerProfile.resolved_current_mileage
    rcases hcur : p.current_weekly_mileage with _ | c
    · have h1 : (1:ℚ) ≤ (p.weekly_mileage_target : ℚ) := by exact_mod_cast hp.1
      nlinarith
    · have h1 : 1 ≤ c := by
        have h2 := hp.2.2.2
        rw [hcur] at h2
        simpa using h2
      have h2 : (1:ℚ) ≤ (c:ℚ) := by exact_mod_cast h1
      linarith
  intro k
  induction k with
  | zero => exact ⟨by linarith, fun _ => by linarith⟩
  | succ k ih =>
    by_cases hrec :
      (k+1) % (EXPERIENCE_ADJUSTMENTS p.experience_level).recovery_weeks_frequency = 0
    · have hkm :
          ¬ k % (EXPERIENCE_ADJUSTMENTS p.experience_level).recovery_weeks_frequency = 0 := by
        rcases freq_cases p.experience_level with h | h | h <;>
          rw [h] at hrec ⊢ <;> omega
      have hk1 : 1/10 ≤ mileage_at p k := ih.2 hkm
      have heq : mileage_at p (k+1) = mileage_at p k * (1 - down_week_reduction) := by
        show calculate_weekly_mileage (k+1) (mileage_at p k) p (week_phase p (k+1)) = _
        simp only [calculate_weekly_mileage]
        rw [if_pos hrec]
      rw [heq]
      unfold down_week_reduction
      exact ⟨by linarith, fun hc => absurd hrec hc⟩
    · have h110 : 1/10 ≤ mileage_at p (k+1) := by
        show 1/10 ≤ calculate_weekly_mileage (k+1) (mileage_at p k) p (week_phase p (k+1))
        simp only [calculate_weekly_mileage]
        rw [if_neg hrec]
        apply round10_ge_tenth
        have hc3 : 3/40 ≤ mileage_at p k := ih.1
        have ht := target_term_lb p hp (k+1) (week_phase p (k+1))
        have hr := rate_bounds p.experience_level
        refine lt_clamped _ _ _ _ ?_ ?_ ?_
        · set t := (if week_phase p (k+1) = .TAPER then
              (p.weekly_mileage_target : ℚ) *
                  (EXPERIENCE_ADJUSTMENTS p.experience_level).max_weekly_mileage_multiplier *
                (1 - (10/100) * (((k+1) % 4 : ℕ) : ℚ))
            else
              (p.weekly_mileage_target : ℚ) *
                (EXPERIENCE_ADJUSTMENTS p.experience_level).max_weekly_mileage_multiplier)
            with hts
          have e1 : (0:ℚ) ≤ (mileage_at p k - 3/40) *
              (1 - (EXPERIENCE_ADJUSTMENTS p.experience_level).mileage_increase_rate) :=
            mul_nonneg (by linarith) (by linarith [hr.2])
          have e2 : (0:ℚ) ≤ (t - 3/40) *
              (EXPERIENCE_ADJUSTMENTS p.experience_level).mileage_increase_rate :=
            mul_nonneg (by linarith) (le_of_lt hr.1)
          nlinarith [e1, e2]
        · unfold max_mileage_increase
          have hc3 : 3/40 ≤ mileage_at p k := ih.1
          nlinarith
        · linarith
      exact ⟨by linarith, fun _ => h110⟩

lemma mileage_at_pos (p : RunnerProfile) (hp : ValidProfile p) (k : ℕ) :
    0 < mileage_at p k :=
  lt_of_lt_of_le (by norm_num) (mileage_at_bounds p hp k).1

lemma mileage_at_recovery (p : RunnerProfile) (k : ℕ)
    (h : (k+1) % (EXPERIENCE_ADJUSTMENTS p.experience_level).recovery_weeks_frequency = 0) :
    mileage_at p (k+1) = mileage_at p k * (1 - down_week_reduction) := by
  show calculate_weekly_mileage (k+1) (mileage_at p k) p (week_phase p (k+1)) = _
  simp only [calculate_weekly_mileage]
  rw [if_pos h]

lemma mileage_at_step_le (p : RunnerProfile) (k : ℕ)
    (h : ¬ (k+1) % (EXPERIENCE_ADJUSTMENTS p.experience_level).recovery_weeks_frequency = 0) :
    mileage_at p (k+1) ≤
      mileage_at p k + mileage_at p k * max_mileage_increase + 1/20 := by
  show calculate_weekly_mileage (k+1) (mileage_at p k) p (week_phase p (k+1)) ≤ _
  simp only [calculate_weekly_mileage]
  rw [if_neg h]
  refine le_trans (round10_le_add _) ?_
  exact add_le_add_right (clamped_le_cap _ _ _) _

lemma create_workout_day (day : ℕ) (wt : WorkoutType) (d : ℚ)
    (phase : TrainingPhase) (profile : RunnerProfile) :
    (create_workout day wt d phase profile).day = day := by
  unfold create_workout Workout.make
  split_ifs <;> rfl

lemma create_workout_distance (day : ℕ) (wt : WorkoutType) (d : ℚ)
    (phase : TrainingPhase) (profile : RunnerProfile) (h : ¬ wt = .REST) :
    (create_workout day wt d phase profile).distance_miles = d := by
  unfold create_workout Workout.make
  rw [if_neg h]

lemma create_workout_rest (day : ℕ) (d : ℚ) (phase : TrainingPhase)
    (profile : RunnerProfile) :
    (create_workout day .REST d phase profile).workout_type = .REST ∧
      (create_workout day .REST d phase profile).distance_miles = 0 ∧
        (create_workout day .REST d phase profile).intensity_zone = .ZONE_1 := by
  unfold create_workout Workout.make
  norm_num

lemma get_workout_type_ne_rest (k : DistKey) : ¬ get_workout_type k = .REST := by
  cases k <;> simp [get_workout_type]

lemma distribute_workouts_shape (profile : RunnerProfile) (phase : TrainingPhase)
    (lrd rem : ℚ) :
    ∀ (entries : List (DistKey × ℚ)) (day : ℕ) (rw : ℤ),
      (distribute_workouts profile phase lrd rem entries day rw).2.1 =
          day + (distribute_workouts profile phase lrd rem entries day rw).1.length ∧
        (distribute_workouts profile phase lrd rem entries day rw).1.map
            (fun w => w.day) =
          List.range' day
            (distribute_workouts profile phase lrd rem entries day rw).1.length ∧
        ((distribute_workouts profile phase lrd rem entries day rw).1.length : ℤ) +
            (distribute_workouts profile phase lrd rem entries day rw).2.2 ≤
          rw + (long_runs_count entries : ℤ) ∧
        (0 ≤ rw → 0 ≤ (distribute_workouts profile phase lrd rem entries day rw).2.2) := by
  intro entries
  induction entries with
  | nil =>
    intro day rw
    simp [distribute_workouts, long_runs_count]
  | cons e rest ih =>
    intro day rw
    obtain ⟨key, pct⟩ := e
    by_cases h1 : pct > 0 ∧ rw > 0
    · by_cases h2 : key = DistKey.long_runs
      · obtain ⟨ih1, ih2, ih3, ih4⟩ := ih (day + 1) rw
        simp only [distribute_workouts, if_pos h1, if_pos h2, List.map_cons,
          List.length_cons, create_workout_day, long_runs_count, List.range'_succ]
        refine ⟨by omega, by rw [ih2], ?_, fun h0 => ih4 h0⟩
        push_cast
        omega
      · by_cases h3 : (rem * pct) / (rw : ℚ) > 0
        · obtain ⟨ih1, ih2, ih3, ih4⟩ := ih (day + 1) (rw - 1)
          simp only [distribute_workouts, if_pos h1, if_neg h2, if_pos h3,
            List.map_cons, List.length_cons, create_workout_day,
            long_runs_count, List.range'_succ]
          refine ⟨by omega, by rw [ih2], ?_, fun _ => ih4 (by omega)⟩
          push_cast
          omega
        · obtain ⟨ih1, ih2, ih3, ih4⟩ := ih day rw
          simp only [distribute_workouts, if_pos h1, if_neg h2, if_neg h3,
            long_runs_count]
          refine ⟨ih1, ih2, ?_, ih4⟩
          push_cast
          omega
    · obtain ⟨ih1, ih2, ih3, ih4⟩ := ih day rw
      simp only [distribute_workouts, if_neg h1, long_runs_count]
      refine ⟨ih1, ih2, ?_, ih4⟩
      split_ifs with h4 <;> push_cast <;> omega

lemma distribute_workouts_sum_le (profile : RunnerProfile) (phase : TrainingPhase)
    (lrd rem : ℚ) (hl : 0 ≤ lrd) (hr : 0 ≤ rem) :
    ∀ (entries : List (DistKey × ℚ)) (day : ℕ) (rw : ℤ),
      (∀ e ∈ entries, 0 ≤ e.2) →
      ((distribute_workouts profile phase lrd rem entries day rw).1.map
          (fun w => w.distance_miles)).sum ≤
        (long_runs_count entries : ℚ) * lrd + rem * nonlong_pct_sum entries := by
  intro entries
  induction entries with
  | nil =>
    intro day rw _
    simp [distribute_workouts, long_runs_count, nonlong_pct_sum]
  | cons e rest ih =>
    intro day rw hpos
    obtain ⟨key, pct⟩ := e
    have hpct : 0 ≤ pct := hpos (key, pct) (by simp)
    have hrest : ∀ e ∈ rest, 0 ≤ e.2 := fun e he => hpos e (by simp [he])
    by_cases h1 : pct > 0 ∧ rw > 0
    · by_cases h2 : key = DistKey.long_runs
      · have ihr := ih (day + 1) rw hrest
        simp only [distribute_workouts, if_pos h1, if_pos h2, List.map_cons,
          List.sum_cons, long_runs_count, nonlong_pct_sum,
          create_workout_distance day .LONG_RUN lrd phase profile (by simp)]
        push_cast
        linarith
      · by_cases h3 : (rem * pct) / (rw : ℚ) > 0
        · have ihr := ih (day + 1) (rw - 1) hrest
          have hrw1 : (1 : ℚ) ≤ (rw : ℚ) := by exact_mod_cast h1.2
          have hdle : (rem * pct) / (rw : ℚ) ≤ rem * pct :=
            div_le_self (mul_nonneg hr hpct) hrw1
          simp only [distribute_workouts, if_pos h1, if_neg h2, if_pos h3,
            List.map_cons, List.sum_cons, long_runs_count, nonlong_pct_sum,
            create_workout_distance day (get_workout_type key) _ phase profile
              (get_workout_type_ne_rest key)]
          push_cast
          linarith
        · have ihr := ih day rw hrest
          simp only [distribute_workouts, if_pos h1, if_neg h2, if_neg h3,
            long_runs_count, nonlong_pct_sum]
          push_cast
          linarith [mul_nonneg hr hpct]
    · have ihr := ih day rw hrest
      simp only [distribute_workouts, if_neg h1, long_runs_count, nonlong_pct_sum]
      split_ifs with h4
      · push_cast
        linarith
      · push_cast
        linarith [mul_nonneg hr hpct]

lemma rest_fill_days (profile : RunnerProfile) (phase : TrainingPhase) (day : ℕ) :
    (rest_fill profile phase day).map (fun w => w.day) =
      List.range' day (profile.days_per_week + 1 - day) := by
  unfold rest_fill
  rw [List.map_map]
  refine Eq.trans (List.map_congr_left ?_) (List.map_id _)
  intro d _
  exact create_workout_day d .REST 0 phase profile

lemma rest_fill_length (profile : RunnerProfile) (phase : TrainingPhase) (day : ℕ) :
    (rest_fill profile phase day).length = profile.days_per_week + 1 - day := by
  unfold rest_fill
  simp

lemma rest_fill_rest (profile : RunnerProfile) (phase : TrainingPhase) (day : ℕ) :
    ∀ w ∈ rest_fill profile phase day,
      w.workout_type = .REST ∧ w.distance_miles = 0 ∧
        w.intensity_zone = .ZONE_1 := by
  intro w hw
  unfold rest_fill at hw
  simp only [List.mem_map] at hw
  obtain ⟨d, _, rfl⟩ := hw
  exact create_workout_rest d 0 phase profile

lemma rest_fill_sum (profile : RunnerProfile) (phase : TrainingPhase) (day : ℕ) :
    ((rest_fill profile phase day).map (fun w => w.distance_miles)).sum = 0 := by
  apply List.sum_eq_zero
  intro x hx
  simp only [List.mem_map] at hx
  obtain ⟨w, hw, rfl⟩ := hx
  exact (rest_fill_rest profile phase day w hw).2.1

lemma long_runs_count_phase (phase : TrainingPhase) :
    long_runs_count (PHASE_WORKOUT_DISTRIBUTION phase) = 1 := by
  cases phase <;> rfl

lemma nonlong_pct_sum_phase (phase : TrainingPhase) :
    nonlong_pct_sum (PHASE_WORKOUT_DISTRIBUTION phase) ≤ 9/10 := by
  cases phase <;> with_unfolding_all decide

lemma pct_nonneg_phase (phase : TrainingPhase) :
    ∀ e ∈ PHASE_WORKOUT_DISTRIBUTION phase, 0 ≤ e.2 := by
  cases phase <;> with_unfolding_all decide

lemma weekly_plan_spec (profile : RunnerProfile) (phase : TrainingPhase)
    (wn : ℕ) (M : ℚ) (hM : ¬ M = 0) (h3 : 3 ≤ profile.days_per_week) :
    (generate_weekly_plan wn phase M profile).workouts =
        (week_distribution profile phase M).1 ++
          rest_fill profile phase
            (1 + (week_distribution profile phase M).1.length) ∧
      (week_distribution profile phase M).1.length ≤ profile.days_per_week ∧
      (generate_weekly_plan wn phase M profile).workouts.length =
        profile.days_per_week ∧
      (generate_weekly_plan wn phase M profile).workouts.map (fun w => w.day) =
        List.range' 1 profile.days_per_week ∧
      (generate_weekly_plan wn phase M profile).total_mileage = M := by
  obtain ⟨s1, s2, s3, s4⟩ :
      (week_distribution profile phase M).2.1 =
          1 + (week_distribution profile phase M).1.length ∧
        (week_distribution profile phase M).1.map (fun w => w.day) =
          List.range' 1 (week_distribution profile phase M).1.length ∧
        ((week_distribution profile phase M).1.length : ℤ) +
            (week_distribution profile phase M).2.2 ≤
          ((profile.days_per_week : ℤ) - 1) +
            (long_runs_count (PHASE_WORKOUT_DISTRIBUTION phase) : ℤ) ∧
        (0 ≤ (profile.days_per_week : ℤ) - 1 →
          0 ≤ (week_distribution profile phase M).2.2) :=
    distribute_workouts_shape profile phase
      (M * (DISTANCE_CONFIGS profile.target_distance).long_run_percentage)
      (M - M * (DISTANCE_CONFIGS profile.target_distance).long_run_percentage)
      (PHASE_WORKOUT_DISTRIBUTION phase) 1 ((profile.days_per_week : ℤ) - 1)
  rw [long_runs_count_phase] at s3
  have hrwpos := s4 (by omega)
  have hL : (week_distribution profile phase M).1.length ≤
      profile.days_per_week := by omega
  have hdays : ((week_distribution profile phase M).1 ++
      rest_fill profile phase ((week_distribution profile phase M).2.1)).map
        (fun w => w.day) = List.range' 1 profile.days_per_week := by
    rw [List.map_append, s2, rest_fill_days, s1]
    have h1 : profile.days_per_week + 1 -
        (1 + (week_distribution profile phase M).1.length) =
        profile.days_per_week - (week_distribution profile phase M).1.length := by
      omega
    rw [h1, List.range'_append_1]
    congr 1
    omega
  have hsorted : List.Sorted (fun a b => a.day ≤ b.day)
      ((week_distribution profile phase M).1 ++
        rest_fill profile phase ((week_distribution profile phase M).2.1)) := by
    have h2 : (((week_distribution profile phase M).1 ++
        rest_fill profile phase ((week_distribution profile phase M).2.1)).map
          (fun w => w.day)).Pairwise (· < ·) := by
      rw [hdays]
      exact List.pairwise_lt_range' 1 profile.days_per_week
    exact (List.pairwise_map.mp h2).imp (fun h => le_of_lt h)
  have hw0 : (generate_weekly_plan wn phase M profile).workouts =
      (week_distribution profile phase M).1 ++
        rest_fill profile phase ((week_distribution profile phase M).2.1) := by
    show List.insertionSort (fun a b => a.day ≤ b.day)
        ((week_distribution profile phase M).1 ++
          rest_fill profile phase ((week_distribution profile phase M).2.1)) = _
    exact List.Sorted.insertionSort_eq hsorted
  have hlen : (generate_weekly_plan wn phase M profile).workouts.length =
      profile.days_per_week := by
    rw [hw0, List.length_append, rest_fill_length, s1]
    omega
  have htm : (generate_weekly_plan wn phase M profile).total_mileage = M := by
    show (if M = 0 then _ else M) = M
    rw [if_neg hM]
  refine ⟨?_, hL, hlen, ?_, htm⟩
  · rw [hw0, s1]
  · rw [hw0]
    exact hdays

lemma determine_phase_mono (pb : PhaseBreakdown) {n m : ℕ} (h : n ≤ m) :
    phase_order (determine_phase n pb) ≤ phase_order (determine_phase m pb) := by
  have hnm : (n : ℤ) ≤ (m : ℤ) := by exact_mod_cast h
  unfold determine_phase
  split_ifs <;> simp [phase_order] <;> omega

lemma generate_plan_intended_total_weeks (p : RunnerProfile) :
    (generate_plan_intended p).total_weeks = calculate_training_weeks p := by
  have h : ¬ calculate_training_weeks p = 0 := by
    cases he : p.experience_level <;> cases hd : p.target_distance <;>
      simp [calculate_training_weeks, DISTANCE_CONFIGS, EXPERIENCE_ADJUSTMENTS,
        he, hd]
  simp only [generate_plan_intended, mkTrainingPlan]
  rw [if_neg h]

lemma week_at_total_mileage (p : RunnerProfile) (hp : ValidProfile p) (k : ℕ) :
    (week_at p k).total_mileage = mileage_at p k :=
  (weekly_plan_spec p (week_phase p k) k (mileage_at p k)
    (mileage_at_pos p hp k).ne' hp.2.1).2.2.2.2

lemma week_at_workouts (p : RunnerProfile) (hp : ValidProfile p) (k : ℕ) :
    (week_at p k).workouts =
      (week_distribution p (week_phase p k) (mileage_at p k)).1 ++
        rest_fill p (week_phase p k)
          (1 + (week_distribution p (week_phase p k) (mileage_at p k)).1.length) :=
  (weekly_plan_spec p (week_phase p k) k (mileage_at p k)
    (mileage_at_pos p hp k).ne' hp.2.1).1

lemma week_at_length (p : RunnerProfile) (hp : ValidProfile p) (k : ℕ) :
    (week_at p k).workouts.length = p.days_per_week :=
  (weekly_plan_spec p (week_phase p k) k (mileage_at p k)
    (mileage_at_pos p hp k).ne' hp.2.1).2.2.1

lemma week_at_days (p : RunnerProfile) (hp : ValidProfile p) (k : ℕ) :
    (week_at p k).workouts.map (fun w => w.day) =
      List.range' 1 p.days_per_week :=
  (weekly_plan_spec p (week_phase p k) k (mileage_at p k)
    (mileage_at_pos p hp k).ne' hp.2.1).2.2.2.1

lemma week_sum_lt_mileage (p : RunnerProfile) (hp : ValidProfile p) (k : ℕ) :
    ((week_at p k).workouts.map (fun w => w.distance_miles)).sum <
      (week_at p k).total_mileage := by
  have hM := mileage_at_pos p hp k
  have hlr := lr_bounds p.target_distance
  have hw := week_at_workouts p hp k
  simp only [week_distribution] at hw
  rw [hw, week_at_total_mileage p hp k, List.map_append, List.sum_append,
    rest_fill_sum]
  have hrem : (0:ℚ) ≤ mileage_at p k -
      mileage_at p k * (DISTANCE_CONFIGS p.target_distance).long_run_percentage := by
    nlinarith [hlr.1, hlr.2]
  have hsum := distribute_workouts_sum_le p (week_phase p k)
    (mileage_at p k * (DISTANCE_CONFIGS p.target_distance).long_run_percentage)
    (mileage_at p k -
      mileage_at p k * (DISTANCE_CONFIGS p.target_distance).long_run_percentage)
    (by nlinarith [hlr.1]) hrem
    (PHASE_WORKOUT_DISTRIBUTION (week_phase p k)) 1 ((p.days_per_week : ℤ) - 1)
    (pct_nonneg_phase _)
  rw [long_runs_count_phase] at hsum
  have hnl := nonlong_pct_sum_phase (week_phase p k)
  have hnl0 : (0:ℚ) ≤ nonlong_pct_sum (PHASE_WORKOUT_DISTRIBUTION (week_phase p k)) := by
    cases hpc : week_phase p k <;> rw [hpc] at * <;> with_unfolding_all decide
  push_cast at hsum
  nlinarith [hsum, mul_le_mul_of_nonneg_left hnl hrem,
    mul_pos hM (show (0:ℚ) < 1 - (DISTANCE_CONFIGS p.target_distance).long_run_percentage by
      linarith [hlr.2]),
    mul_nonneg hrem hnl0]

lemma one_le_ctw (p : RunnerProfile) : 1 ≤ calculate_training_weeks p := by
  cases he : p.experience_level <;> cases hd : p.target_distance <;>
    simp [calculate_training_weeks, DISTANCE_CONFIGS, EXPERIENCE_ADJUSTMENTS,
      he, hd]

lemma phase_breakdown_sum (p : RunnerProfile) :
    (phase_breakdown_of p).BASE + (phase_breakdown_of p).BUILD +
        (phase_breakdown_of p).PEAK + (phase_breakdown_of p).TAPER =
      (calculate_training_weeks p : ℤ) := by
  unfold phase_breakdown_of
  cases he : p.experience_level <;> cases hd : p.target_distance <;>
    simp [calculate_training_weeks, calculate_phase_breakdown,
      DISTANCE_CONFIGS, EXPERIENCE_ADJUSTMENTS, he, hd]

lemma determine_phase_src_none (pb : PhaseBreakdown) (w : ℕ)
    (hw : (w : ℤ) ≤ pb.BASE + pb.BUILD + pb.PEAK + pb.TAPER) :
    determine_phase_src w pb = none := by
  have h1 : phase_of_value "BASE" = none := by with_unfolding_all rfl
  have h2 : phase_of_value "BUILD" = none := by with_unfolding_all rfl
  have h3 : phase_of_value "PEAK" = none := by with_unfolding_all rfl
  have h4 : phase_of_value "TAPER" = none := by with_unfolding_all rfl
  unfold determine_phase_src
  split_ifs with a b c
  · exact h1
  · exact h2
  · exact h3
  · exact h4

lemma plan_weeks_src_none (profile : RunnerProfile) (pb : PhaseBreakdown)
    (n : ℕ) (c : ℚ) (h : determine_phase_src 1 pb = none) :
    plan_weeks_src profile pb (n + 1) 1 c = none := by
  simp [plan_weeks_src, h]

lemma generate_plan_src_none (p : RunnerProfile) :
    generate_plan_src p = none := by
  have h1 := one_le_ctw p
  have hsum := phase_breakdown_sum p
  unfold phase_breakdown_of at hsum
  obtain ⟨m, hm⟩ : ∃ m, calculate_training_weeks p = m + 1 :=
    ⟨calculate_training_weeks p - 1, by omega⟩
  simp only [generate_plan_src]
  rw [hm] at hsum ⊢
  have hph : determine_phase_src 1 (calculate_phase_breakdown p (m + 1)) = none := by
    apply determine_phase_src_none
    rw [hsum]
    push_cast
    omega
  rw [plan_weeks_src_none p _ m _ hph]

/-- C3 (code bug): in the source, `_determine_phase` constructs the phase
enum BY VALUE from the breakdown dict KEY (`TrainingPhase("BASE")` while the
enum values are "Base"...), which raises `ValueError` for every reachable
week — modelled by `determine_phase_src` returning `none` already at week 1
of a valid profile (first conjunct).  The claim itself is right about the
intended code: the four phase-week counts always sum to `total_weeks`
(second conjunct) and the per-week phase assignment is monotone
non-decreasing in the order Base, Build, Peak, Taper (third conjunct). -/
theorem claim_C3_phase_breakdown :
    determine_phase_src 1 (phase_breakdown_of profile_5K) = none ∧
      (∀ p : RunnerProfile,
        (phase_breakdown_of p).BASE + (phase_breakdown_of p).BUILD +
            (phase_breakdown_of p).PEAK + (phase_breakdown_of p).TAPER =
          (calculate_training_weeks p : ℤ)) ∧
      (∀ (pb : PhaseBreakdown) (n m : ℕ), n ≤ m →
        phase_order (determine_phase n pb) ≤ phase_order (determine_phase m pb)) := by
  refine ⟨by with_unfolding_all decide, ?_, ?_⟩
  · exact fun p => phase_breakdown_sum p
  · intro pb n m h
    exact determine_phase_mono pb h

/-- Witness for C3's universally quantified parts at concrete inputs. -/
theorem claim_C3_phase_breakdown_witness :
    (phase_breakdown_of profile_5K).BASE + (phase_breakdown_of profile_5K).BUILD +
          (phase_breakdown_of profile_5K).PEAK + (phase_breakdown_of profile_5K).TAPER =
        (calculate_training_weeks profile_5K : ℤ) ∧
      phase_order (determine_phase 2 (phase_breakdown_of profile_5K)) ≤
        phase_order (determine_phase 9 (phase_breakdown_of profile_5K)) :=
  ⟨claim_C3_phase_breakdown.2.1 profile_5K,
    claim_C3_phase_breakdown.2.2 (phase_breakdown_of profile_5K) 2 9 (by norm_num)⟩

/-- C8 as literally stated is false: `duration_minutes` is the Python
`int(...)` truncation of `distance * pace`, not the exact product — for a
1.5 mile Zone 2 workout the product is 13.5 but the stored duration is 13. -/
theorem claim_C8_duration_counterexample :
    ¬ (((Workout.make 1 .EASY_RUN (3/2) .ZONE_2).duration_minutes : ℚ) =
        (3/2) * zone_pace .ZONE_2) := by
  with_unfolding_all decide

/-- C8 amended: for a workout constructed without an explicit duration, the
duration equals the integer truncation `⌊distance * pace⌋` of
`distance * pace_table[zone]` (truncation toward zero equals the floor on
the nonnegative distances the generator produces), with the pace table
mapping Zones 1-5 to 10.0, 9.0, 8.0, 7.0, 6.0 minutes per mile. -/
theorem claim_C8_duration (day : ℕ) (wt : WorkoutType) (d : ℚ)
    (z : TrainingZone) (hd : 0 ≤ d) :
    (Workout.make day wt d z).duration_minutes = ⌊d * zone_pace z⌋ ∧
      zone_pace .ZONE_1 = 10 ∧ zone_pace .ZONE_2 = 9 ∧ zone_pace .ZONE_3 = 8 ∧
        zone_pace .ZONE_4 = 7 ∧ zone_pace .ZONE_5 = 6 := by
  refine ⟨?_, rfl, rfl, rfl, rfl, rfl⟩
  show pyInt (d * zone_pace z) = _
  unfold pyInt
  have hz : 0 ≤ zone_pace z := by cases z <;> norm_num [zone_pace]
  rw [if_neg (not_lt.mpr (mul_nonneg hd hz))]

/-- Witness for C8's amended statement at a concrete input. -/
theorem claim_C8_duration_witness :
    (Workout.make 2 .LONG_RUN (141/50) .ZONE_2).duration_minutes =
        ⌊(141/50 : ℚ) * zone_pace .ZONE_2⌋ ∧
      zone_pace .ZONE_1 = 10 ∧ zone_pace .ZONE_2 = 9 ∧ zone_pace .ZONE_3 = 8 ∧
        zone_pace .ZONE_4 = 7 ∧ zone_pace .ZONE_5 = 6 :=
  claim_C8_duration 2 .LONG_RUN (141/50) .ZONE_2 (by norm_num)

/-- C4 (code bug): the source `generate_plan` raises `ValueError` in
`_determine_phase` on its first loop iteration and returns no plan for any
profile — first conjunct, over the faithful embedding `generate_plan_src`.
The claimed arithmetic is right about the code it describes:
`_calculate_training_weeks` — which the source does execute before the
crash — returns the distance's minimum training weeks plus the experience
level's base-phase extension clamped into the distance's [min, max]
interval, and so always lies in that interval (second conjunct); in the
clearly-marked intended variant of the generator (by-name phase lookup, see
C3) the returned plan's `total_weeks` is exactly that value (third
conjunct). -/
theorem claim_C4_total_weeks :
    (∀ p : RunnerProfile, generate_plan_src p = none) ∧
      (∀ p : RunnerProfile,
        calculate_training_weeks p =
            min (max ((DISTANCE_CONFIGS p.target_distance).min_training_weeks +
                  (EXPERIENCE_ADJUSTMENTS p.experience_level).base_phase_extension)
                (DISTANCE_CONFIGS p.target_distance).min_training_weeks)
              (DISTANCE_CONFIGS p.target_distance).max_training_weeks ∧
          (DISTANCE_CONFIGS p.target_distance).min_training_weeks ≤
            calculate_training_weeks p ∧
          calculate_training_weeks p ≤
            (DISTANCE_CONFIGS p.target_distance).max_training_weeks) ∧
      (∀ p : RunnerProfile,
        (generate_plan_intended p).total_weeks = calculate_training_weeks p) := by
  refine ⟨generate_plan_src_none, ?_, generate_plan_intended_total_weeks⟩
  intro p
  cases he : p.experience_level <;> cases hd : p.target_distance <;>
    simp [calculate_training_weeks, DISTANCE_CONFIGS, EXPERIENCE_ADJUSTMENTS,
      he, hd]

/-- C5 (code bug): the source never reaches the mileage recurrence — its
loop raises in `_determine_phase` before `_calculate_weekly_mileage` is
called, and no recovery week is ever produced (first conjunct, faithful
embedding).  The claimed arithmetic is right about the code it describes:
the recovery branch of `_calculate_weekly_mileage` returns exactly
`current_mileage * (1 - 0.25)` whenever the week number is a multiple of
the recovery frequency, for every phase and carried mileage (second
conjunct); and in the clearly-marked intended variant every recovery week's
`total_mileage` equals the carried-in — preceding week's — mileage times
`1 - 0.25` and is strictly below it (third conjunct). -/
theorem claim_C5_recovery :
    (∀ p : RunnerProfile, generate_plan_src p = none) ∧
      (∀ (p : RunnerProfile) (k : ℕ) (c : ℚ) (phase : TrainingPhase),
        k % (EXPERIENCE_ADJUSTMENTS p.experience_level).recovery_weeks_frequency = 0 →
          calculate_weekly_mileage k c p phase = c * (1 - down_week_reduction)) ∧
      (∀ p : RunnerProfile, ValidProfile p → ∀ (i : ℕ)
        (h : i + 1 < (generate_plan_intended p).weeks.length),
        (i + 2) % (EXPERIENCE_ADJUSTMENTS p.experience_level).recovery_weeks_frequency = 0 →
          ((generate_plan_intended p).weeks.get ⟨i + 1, h⟩).total_mileage =
              ((generate_plan_intended p).weeks.get
                  ⟨i, Nat.lt_of_succ_lt h⟩).total_mileage *
                (1 - down_week_reduction) ∧
            ((generate_plan_intended p).weeks.get ⟨i + 1, h⟩).total_mileage <
              ((generate_plan_intended p).weeks.get
                  ⟨i, Nat.lt_of_succ_lt h⟩).total_mileage) := by
  refine ⟨generate_plan_src_none, ?_, ?_⟩
  · intro p k c phase h
    simp only [calculate_weekly_mileage]
    rw [if_pos h]
  · intro p hp i h hrec
    rw [generate_plan_intended_weeks_get p (i + 1) h,
      generate_plan_intended_weeks_get p i (Nat.lt_of_succ_lt h),
      week_at_total_mileage p hp (i + 1 + 1), week_at_total_mileage p hp (i + 1)]
    have hrec2 : (i + 1 + 1) %
        (EXPERIENCE_ADJUSTMENTS p.experience_level).recovery_weeks_frequency = 0 :=
      hrec
    rw [mileage_at_recovery p (i + 1) hrec2]
    have hpos := mileage_at_pos p hp (i + 1)
    refine ⟨rfl, ?_⟩
    unfold down_week_reduction
    nlinarith

/-- Witness for C5's quantified parts: the unit-level recovery formula at
week 3 of the Beginner/5K profile, and weeks 2-3 of the intended-variant
plan (10.65 = 14.2 * 0.75 < 14.2). -/
theorem claim_C5_recovery_witness :
    calculate_weekly_mileage 3 (142/10) profile_5K .BASE =
        (142/10) * (1 - down_week_reduction) ∧
      (((generate_plan_intended profile_5K).weeks.get
            ⟨2, by with_unfolding_all decide⟩).total_mileage =
          ((generate_plan_intended profile_5K).weeks.get
              ⟨1, by with_unfolding_all decide⟩).total_mileage *
            (1 - down_week_reduction) ∧
        ((generate_plan_intended profile_5K).weeks.get
            ⟨2, by with_unfolding_all decide⟩).total_mileage <
          ((generate_plan_intended profile_5K).weeks.get
              ⟨1, by with_unfolding_all decide⟩).total_mileage) :=
  ⟨claim_C5_recovery.2.1 profile_5K 3 (142/10) .BASE (by with_unfolding_all decide),
    claim_C5_recovery.2.2 profile_5K (by with_unfolding_all decide) 1
      (by with_unfolding_all decide) (by with_unfolding_all decide)⟩

/-- C6 (code bug): the source raises in `_determine_phase` at week 1, so no
week is ever assigned the Taper phase by the real program (first conjunct,
faithful embedding).  The claimed formula is right about the code it
describes: for any non-recovery week number, `_calculate_weekly_mileage`
with the Taper phase steps toward exactly
`weekly_mileage_target * max_weekly_mileage_multiplier * (1 - 0.1 * (week mod 4))`
(second conjunct); that scaling is periodic with period 4 (third conjunct);
and it is not monotonically decreasing across the taper of the intended
variant's plan: for the Advanced/Marathon profile, weeks 14 and 16 are
non-recovery Taper weeks of the 16-week plan and the week-16 target is
strictly larger (fourth conjunct). -/
theorem claim_C6_taper_target :
    (∀ p : RunnerProfile, generate_plan_src p = none) ∧
      (∀ (p : RunnerProfile) (k : ℕ) (c : ℚ),
        ¬ k % (EXPERIENCE_ADJUSTMENTS p.experience_level).recovery_weeks_frequency = 0 →
          calculate_weekly_mileage k c p .TAPER =
            overload_step c (taper_target p k)
              (EXPERIENCE_ADJUSTMENTS p.experience_level).mileage_increase_rate) ∧
      (∀ (p : RunnerProfile) (k : ℕ), taper_target p (k + 4) = taper_target p k) ∧
      (week_phase profile_marathon 14 = .TAPER ∧
        week_phase profile_marathon 16 = .TAPER ∧
        ¬ 14 % (EXPERIENCE_ADJUSTMENTS
          profile_marathon.experience_level).recovery_weeks_frequency = 0 ∧
        ¬ 16 % (EXPERIENCE_ADJUSTMENTS
          profile_marathon.experience_level).recovery_weeks_frequency = 0 ∧
        calculate_training_weeks profile_marathon = 16 ∧
        taper_target profile_marathon 14 < taper_target profile_marathon 16) := by
  refine ⟨generate_plan_src_none, ?_, ?_, ?_⟩
  · intro p k c h
    simp only [calculate_weekly_mileage, overload_step, taper_target]
    rw [if_neg h]
    simp only [if_true]
  · intro p k
    unfold taper_target
    rw [Nat.add_mod_right]
  · refine ⟨?_, ?_, ?_, ?_, ?_, ?_⟩ <;> with_unfolding_all decide

/-- Witness for C6's quantified part at a concrete input. -/
theorem claim_C6_taper_target_witness :
    calculate_weekly_mileage 14 30 profile_marathon .TAPER =
      overload_step 30 (taper_target profile_marathon 14)
        (EXPERIENCE_ADJUSTMENTS profile_marathon.experience_level).mileage_increase_rate :=
  claim_C6_taper_target.2.1 profile_marathon 14 30 (by with_unfolding_all decide)

/-- C7 (code bug): the source raises in `_determine_phase` at week 1 and
generates no weeks at all (first conjunct, faithful embedding).  The
claimed structure is right about the intended algorithm: in the
clearly-marked intended variant, every week has exactly `days_per_week`
workouts, their day numbers are exactly 1..days_per_week in strictly
increasing order with no duplicates, the workout list is the distributed
workouts followed by the rest-day fill, and every rest-fill workout is a
Rest workout with zero distance and Zone 1 (second conjunct). -/
theorem claim_C7_week_structure :
    (∀ p : RunnerProfile, generate_plan_src p = none) ∧
      (∀ p : RunnerProfile, ValidProfile p → ∀ (i : ℕ)
        (h : i < (generate_plan_intended p).weeks.length),
        ((generate_plan_intended p).weeks.get ⟨i, h⟩).workouts.length =
            p.days_per_week ∧
          ((generate_plan_intended p).weeks.get ⟨i, h⟩).workouts.map
              (fun w => w.day) = List.range' 1 p.days_per_week ∧
          ((generate_plan_intended p).weeks.get ⟨i, h⟩).workouts.Pairwise
            (fun a b => a.day < b.day) ∧
          ((generate_plan_intended p).weeks.get ⟨i, h⟩).workouts =
            (week_distribution p (week_phase p (i + 1)) (mileage_at p (i + 1))).1 ++
              rest_fill p (week_phase p (i + 1))
                (1 + (week_distribution p (week_phase p (i + 1))
                  (mileage_at p (i + 1))).1.length) ∧
          ∀ w ∈ rest_fill p (week_phase p (i + 1))
              (1 + (week_distribution p (week_phase p (i + 1))
                (mileage_at p (i + 1))).1.length),
            w.workout_type = .REST ∧ w.distance_miles = 0 ∧
              w.intensity_zone = .ZONE_1) := by
  refine ⟨generate_plan_src_none, ?_⟩
  intro p hp i h
  rw [generate_plan_intended_weeks_get p i h]
  have hd := week_at_days p hp (i + 1)
  have h2 : ((week_at p (i + 1)).workouts.map (fun w => w.day)).Pairwise
      (· < ·) := by
    rw [hd]
    exact List.pairwise_lt_range' 1 p.days_per_week
  exact ⟨week_at_length p hp (i + 1), hd, List.pairwise_map.mp h2,
    week_at_workouts p hp (i + 1), rest_fill_rest p _ _⟩

/-- Witness for C7 at week 1 of the Beginner/5K intended-variant plan. -/
theorem claim_C7_week_structure_witness :
    ((generate_plan_intended profile_5K).weeks.get
        ⟨0, by with_unfolding_all decide⟩).workouts.length =
        profile_5K.days_per_week ∧
      ((generate_plan_intended profile_5K).weeks.get
          ⟨0, by with_unfolding_all decide⟩).workouts.map (fun w => w.day) =
        List.range' 1 profile_5K.days_per_week ∧
      ((generate_plan_intended profile_5K).weeks.get
          ⟨0, by with_unfolding_all decide⟩).workouts.Pairwise
        (fun a b => a.day < b.day) ∧
      ((generate_plan_intended profile_5K).weeks.get
          ⟨0, by with_unfolding_all decide⟩).workouts =
        (week_distribution profile_5K (week_phase profile_5K 1)
            (mileage_at profile_5K 1)).1 ++
          rest_fill profile_5K (week_phase profile_5K 1)
            (1 + (week_distribution profile_5K (week_phase profile_5K 1)
              (mileage_at profile_5K 1)).1.length) ∧
      ∀ w ∈ rest_fill profile_5K (week_phase profile_5K 1)
          (1 + (week_distribution profile_5K (week_phase profile_5K 1)
            (mileage_at profile_5K 1)).1.length),
        w.workout_type = .REST ∧ w.distance_miles = 0 ∧
          w.intensity_zone = .ZONE_1 :=
  claim_C7_week_structure.2 profile_5K (by with_unfolding_all decide) 0
    (by with_unfolding_all decide)

/-- C10 (code bug): the source raises in `_determine_phase` at week 1 and
produces no week — in particular none with positive mileage (first
conjunct, faithful embedding).  The claimed inequality is right about the
intended algorithm: in the clearly-marked intended variant, every week with
positive `total_mileage` has workout distances summing to strictly less
than it — each non-long-run workout receives
`remaining_mileage * percentage / remaining_workouts` and the long-run
fraction is below 1, so the distribution never allocates the full weekly
mileage (second conjunct). -/
theorem claim_C10_sum_lt_mileage :
    (∀ p : RunnerProfile, generate_plan_src p = none) ∧
      (∀ p : RunnerProfile, ValidProfile p → ∀ (i : ℕ)
        (h : i < (generate_plan_intended p).weeks.length),
        0 < ((generate_plan_intended p).weeks.get ⟨i, h⟩).total_mileage →
          (((generate_plan_intended p).weeks.get ⟨i, h⟩).workouts.map
              (fun w => w.distance_miles)).sum <
            ((generate_plan_intended p).weeks.get ⟨i, h⟩).total_mileage) := by
  refine ⟨generate_plan_src_none, ?_⟩
  intro p hp i h _hpos
  rw [generate_plan_intended_weeks_get p i h]
  exact week_sum_lt_mileage p hp (i + 1)

/-- Witness for C10 at week 1 of the Beginner/5K intended-variant plan
(6.298 < 14.1). -/
theorem claim_C10_sum_lt_mileage_witness :
    (((generate_plan_intended profile_5K).weeks.get
          ⟨0, by with_unfolding_all decide⟩).workouts.map
        (fun w => w.distance_miles)).sum <
      ((generate_plan_intended profile_5K).weeks.get
          ⟨0, by with_unfolding_all decide⟩).total_mileage :=
  claim_C10_sum_lt_mileage.2 profile_5K (by with_unfolding_all decide) 0
    (by with_unfolding_all decide) (by with_unfolding_all decide)

/-- C1 (corrected): the claim that every week's workout distances sum to
its `total_mileage` within 0.1 is false twice over.  Against the real
source there is no plan at all whose weeks could satisfy it — the faithful
embedding returns `none` for the Beginner/5K profile, so no returned plan
has the property (first conjunct); and even in the clearly-marked intended
variant the property fails at week 1 of that profile, where the workout
distances sum to 6.298 against a `total_mileage` of 14.1 (second
conjunct). -/
theorem claim_C1_counterexample :
    (¬ ∃ plan : TrainingPlan, generate_plan_src profile_5K = some plan ∧
        ∀ w ∈ plan.weeks,
          |(w.workouts.map (fun x => x.distance_miles)).sum -
            w.total_mileage| ≤ 1/10) ∧
      ¬ |(((generate_plan_intended profile_5K).weeks.get
              ⟨0, by with_unfolding_all decide⟩).workouts.map
            (fun x => x.distance_miles)).sum -
          ((generate_plan_intended profile_5K).weeks.get
              ⟨0, by with_unfolding_all decide⟩).total_mileage| ≤ 1/10 := by
  constructor
  · rintro ⟨plan, hplan, -⟩
    rw [generate_plan_src_none] at hplan
    exact Option.noConfusion hplan
  · with_unfolding_all decide

/-- C1 amended: the real source returns no plan for any profile (first
conjunct); in the clearly-marked intended variant the workout distances of
every week sum to at most the week's `total_mileage` — the distribution
only ever allocates fractions of the remaining mileage, and
`TrainingWeek.__post_init__` keeps the passed non-zero total instead of
recomputing it (second conjunct). -/
theorem claim_C1_sum_le_mileage :
    (∀ p : RunnerProfile, generate_plan_src p = none) ∧
      (∀ p : RunnerProfile, ValidProfile p → ∀ (i : ℕ)
        (h : i < (generate_plan_intended p).weeks.length),
        (((generate_plan_intended p).weeks.get ⟨i, h⟩).workouts.map
            (fun w => w.distance_miles)).sum ≤
          ((generate_plan_intended p).weeks.get ⟨i, h⟩).total_mileage) := by
  refine ⟨generate_plan_src_none, ?_⟩
  intro p hp i h
  rw [generate_plan_intended_weeks_get p i h]
  exact le_of_lt (week_sum_lt_mileage p hp (i + 1))

/-- Witness for C1's quantified part at week 1 of the Beginner/5K
intended-variant plan. -/
theorem claim_C1_sum_le_mileage_witness :
    (((generate_plan_intended profile_5K).weeks.get
          ⟨0, by with_unfolding_all decide⟩).workouts.map
        (fun w => w.distance_miles)).sum ≤
      ((generate_plan_intended profile_5K).weeks.get
          ⟨0, by with_unfolding_all decide⟩).total_mileage :=
  claim_C1_sum_le_mileage.2 profile_5K (by with_unfolding_all decide) 0
    (by with_unfolding_all decide)

/-- C2 (corrected): the claim that weekly mileage never increases by more
than 10% week over week is false twice over.  Against the real source
there is no plan at all — the faithful embedding returns `none` for the
Beginner/Mile profile, so no returned plan's weeks satisfy the cap (first
conjunct); and even in the clearly-marked intended variant the exact 10%
cap fails: week 4 of that profile is not a recovery week, yet its mileage
10.0 = round(9.9825, 1) exceeds week 3's 9.075 plus 10% of it (second
conjunct). -/
theorem claim_C2_counterexample :
    (¬ ∃ plan : TrainingPlan, generate_plan_src profile_mile = some plan ∧
        plan.weeks.Chain' (fun a b =>
          b.total_mileage ≤ a.total_mileage +
            a.total_mileage * max_mileage_increase)) ∧
      (¬ 4 % (EXPERIENCE_ADJUSTMENTS
          profile_mile.experience_level).recovery_weeks_frequency = 0 ∧
        ((generate_plan_intended profile_mile).weeks.get
              ⟨2, by with_unfolding_all decide⟩).total_mileage +
            ((generate_plan_intended profile_mile).weeks.get
                ⟨2, by with_unfolding_all decide⟩).total_mileage *
              max_mileage_increase <
          ((generate_plan_intended profile_mile).weeks.get
              ⟨3, by with_unfolding_all decide⟩).total_mileage) := by
  refine ⟨?_, ?_, ?_⟩
  · rintro ⟨plan, hplan, -⟩
    rw [generate_plan_src_none] at hplan
    exact Option.noConfusion hplan
  · with_unfolding_all decide
  · with_unfolding_all decide

/-- C2 amended: the real source returns no plan for any profile (first
conjunct); in the clearly-marked intended variant, each non-recovery week's
mileage exceeds the preceding week's by at most 10% of it plus a rounding
slack of 0.05 — the pre-rounding value is capped at 110% of the prior week
and `round(x, 1)` can overshoot by up to 0.05 — and each recovery week's
mileage strictly decreases (second conjunct). -/
theorem claim_C2_safety_cap :
    (∀ p : RunnerProfile, generate_plan_src p = none) ∧
      (∀ p : RunnerProfile, ValidProfile p → ∀ (i : ℕ)
        (h : i + 1 < (generate_plan_intended p).weeks.length),
        (¬ (i + 2) % (EXPERIENCE_ADJUSTMENTS
            p.experience_level).recovery_weeks_frequency = 0 →
          ((generate_plan_intended p).weeks.get ⟨i + 1, h⟩).total_mileage ≤
            ((generate_plan_intended p).weeks.get
                ⟨i, Nat.lt_of_succ_lt h⟩).total_mileage +
              ((generate_plan_intended p).weeks.get
                  ⟨i, Nat.lt_of_succ_lt h⟩).total_mileage *
                max_mileage_increase + 1/20) ∧
        ((i + 2) % (EXPERIENCE_ADJUSTMENTS
            p.experience_level).recovery_weeks_frequency = 0 →
          ((generate_plan_intended p).weeks.get ⟨i + 1, h⟩).total_mileage <
            ((generate_plan_intended p).weeks.get
                ⟨i, Nat.lt_of_succ_lt h⟩).total_mileage)) := by
  refine ⟨generate_plan_src_none, ?_⟩
  intro p hp i h
  rw [generate_plan_intended_weeks_get p (i + 1) h,
    generate_plan_intended_weeks_get p i (Nat.lt_of_succ_lt h),
    week_at_total_mileage p hp (i + 1 + 1), week_at_total_mileage p hp (i + 1)]
  constructor
  · intro hnr
    exact mileage_at_step_le p (i + 1) hnr
  · intro hr
    rw [mileage_at_recovery p (i + 1) hr]
    have hpos := mileage_at_pos p hp (i + 1)
    unfold down_week_reduction
    nlinarith

/-- Witness for C2's quantified part at weeks 1-2 of the Beginner/5K
intended-variant plan (week 2 is not a recovery week and 14.1 ≤ 14 + 1.4 +
0.05; the recovery implication holds vacuously there). -/
theorem claim_C2_safety_cap_witness :
    (¬ 2 % (EXPERIENCE_ADJUSTMENTS
        profile_5K.experience_level).recovery_weeks_frequency = 0 →
      ((generate_plan_intended profile_5K).weeks.get
          ⟨1, by with_unfolding_all decide⟩).total_mileage ≤
        ((generate_plan_intended profile_5K).weeks.get
            ⟨0, by with_unfolding_all decide⟩).total_mileage +
          ((generate_plan_intended profile_5K).weeks.get
              ⟨0, by with_unfolding_all decide⟩).total_mileage *
            max_mileage_increase + 1/20) ∧
    (2 % (EXPERIENCE_ADJUSTMENTS
        profile_5K.experience_level).recovery_weeks_frequency = 0 →
      ((generate_plan_intended profile_5K).weeks.get
          ⟨1, by with_unfolding_all decide⟩).total_mileage <
        ((generate_plan_intended profile_5K).weeks.get
            ⟨0, by with_unfolding_all decide⟩).total_mileage) :=
  claim_C2_safety_cap.2 profile_5K (by with_unfolding_all decide) 0
    (by with_unfolding_all decide)
